import Mathlib

/-!
# Verification of `mercurius-integration-testing`

A shallow embedding of the repository's test client (`src/index.ts`) and of
its GraphQL-over-WebSocket subscription client, together with proofs of the
specified properties.

The HTTP side (`createMercuriusTestClient`, `query`, `mutate`, `batchQueries`,
`setHeaders`, `setCookies`, `subscribe`'s wiring) is embedded directly from
`src/index.ts`.  The `SubscriptionClient` class lives in
`src/subscription/client.ts`, which is not part of the sources available here;
its behaviour (connection state machine, subscription registry, close) is
modelled from the specification, as marked on each definition.
-/

namespace Mercurius

/-- A minimal JSON value, enough to model GraphQL request/response payloads. -/
inductive Json where
  | null : Json
  | bool (b : Bool) : Json
  | num (n : Int) : Json
  | str (s : String) : Json
  | obj (fields : List (String × Json)) : Json

/-- Association-list lookup with string keys, first match wins -- the
observable part of a JS object built by spreads. -/
def lookupStr (k : String) : List (String × String) → Option String
  | [] => none
  | p :: ps => if p.1 = k then some p.2 else lookupStr k ps

/-- First defined of two optional values (`x` takes precedence). -/
def firstSome (x y : Option α) : Option α :=
  match x with
  | some v => some v
  | none => y

/-- JS object spread `{...a, ...b}`: entries of `b` override same-keyed
entries of `a`. -/
def spread (a b : List (String × String)) : List (String × String) :=
  a.filter (fun p => (lookupStr p.1 b).isNone) ++ b

theorem firstSome_none_right (x : Option α) : firstSome x none = x := by
  cases x <;> rfl

theorem lookupStr_append (k : String) (a b : List (String × String)) :
    lookupStr k (a ++ b) = firstSome (lookupStr k a) (lookupStr k b) := by
  induction a with
  | nil => simp [lookupStr, firstSome]
  | cons p ps ih =>
    by_cases h : p.1 = k <;> simp [lookupStr, h, firstSome, ih]

theorem lookupStr_filter_of_none (k : String) (a b : List (String × String))
    (hb : lookupStr k b = none) :
    lookupStr k (a.filter (fun p => (lookupStr p.1 b).isNone)) = lookupStr k a := by
  induction a with
  | nil => simp [lookupStr]
  | cons p ps ih =>
    by_cases h : p.1 = k
    · subst h
      simp [List.filter, lookupStr, hb, ih]
    · by_cases h2 : (lookupStr p.1 b).isNone <;>
        simp [List.filter, h2, lookupStr, h, ih]

theorem lookupStr_filter_of_some (k : String) (a b : List (String × String))
    (v : String) (hb : lookupStr k b = some v) :
    lookupStr k (a.filter (fun p => (lookupStr p.1 b).isNone)) = none := by
  induction a with
  | nil => simp [lookupStr]
  | cons p ps ih =>
    by_cases h : p.1 = k
    · subst h
      simp [List.filter, lookupStr, hb, ih]
    · by_cases h2 : (lookupStr p.1 b).isNone <;>
        simp [List.filter, h2, lookupStr, h, ih]

/-- Lookup through a spread: the later object wins, otherwise the earlier. -/
theorem lookupStr_spread (k : String) (a b : List (String × String)) :
    lookupStr k (spread a b) = firstSome (lookupStr k b) (lookupStr k a) := by
  unfold spread
  rw [lookupStr_append]
  cases hb : lookupStr k b with
  | none =>
    rw [lookupStr_filter_of_none k a b hb, firstSome_none_right]
    simp [firstSome]
  | some v => rw [lookupStr_filter_of_some k a b v hb]; simp [firstSome, hb]

/-! ## HTTP side, embedded from `src/index.ts` -/

/-- A query argument: `DocumentNode | string` (`D` stands for `DocumentNode`,
an opaque document type whose printer is passed alongside). -/
inductive QueryInput (D : Type) where
  | str (s : String) : QueryInput D
  | doc (d : D) : QueryInput D

/-- `typeof query === "string" ? query : print(query)` (src/index.ts:168). -/
def QueryInput.toQueryString (print : D → String) : QueryInput D → String
  | .str s => s
  | .doc d => print d

/-- The per-call `QueryOptions` of `query`/`mutate` (src/index.ts:12-17).
`none` marks an absent (`undefined`) property. -/
structure QueryOptions where
  vars : Option Json := none
  operationName : Option String := none
  headers : List (String × String) := []
  cookies : List (String × String) := []

/-- The JSON body `{query, variables, operationName}` built by `query`
(src/index.ts:167-171); `operationName = none` models JSON `null`. -/
structure GqlRequestBody where
  query : String
  vars : Json
  operationName : Option String

/-- The argument object handed to `app.inject` (src/index.ts:155-172). -/
structure InjectedRequest (B : Type) where
  method : String
  url : String
  cookies : List (String × String)
  headers : List (String × String)
  payload : B

/-- The host framework's injection response: `.json()` is its body parsed as
JSON. -/
structure Response where
  json : Json

/-- The default content-type header entry (src/index.ts:163). -/
def defaultContentTypeHeader : List (String × String) :=
  [("content-type", "application/json; charset=utf-8")]

/-- `opts.url || "/graphql"` (src/index.ts:142): JS `||` also replaces the
empty string. -/
def resolveUrl (o : Option String) : String :=
  match o with
  | some u => if u = "" then "/graphql" else u
  | none => "/graphql"

/-- The single `app.inject` request that `query` builds (src/index.ts:154-172):
method POST, the configured url, cookies `{...cookies, ...querySpecificCookies}`,
headers `{content-type, ...headers, ...querySpecificHeaders}` and the GraphQL
JSON body with its defaults (`variables = {}`, `operationName = null`). -/
def buildQueryRequest (D : Type) (print : D → String) (url : String)
    (globalHeaders globalCookies : List (String × String))
    (q : QueryInput D) (opts : QueryOptions) : InjectedRequest GqlRequestBody :=
  { method := "POST"
    url := url
    cookies := spread globalCookies opts.cookies
    headers := spread (spread defaultContentTypeHeader globalHeaders) opts.headers
    payload :=
      { query := q.toQueryString print
        vars := opts.vars.getD (Json.obj [])
        operationName := opts.operationName } }

/-- The `query` function (src/index.ts:144-174): builds one request, injects
it once, and returns the parsed JSON of the response.  The first component is
the list of requests issued (the injection trace). -/
def query (D : Type) (print : D → String)
    (inject : InjectedRequest GqlRequestBody → Response) (url : String)
    (globalHeaders globalCookies : List (String × String))
    (q : QueryInput D) (opts : QueryOptions) :
    List (InjectedRequest GqlRequestBody) × Json :=
  let req := buildQueryRequest D print url globalHeaders globalCookies q opts
  ([req], (inject req).json)

/-- One entry of a `batchQueries` call (src/index.ts:185-189). -/
structure BatchQueryItem (D : Type) where
  query : QueryInput D
  vars : Option Json := none
  operationName : Option String := none

/-- The body entry `{query, variables: variables || {}, operationName:
operationName || null}` built by `batchQueries` (src/index.ts:209-214);
JS `||` sends an empty-string `operationName` to `null`. -/
def batchBodyEntry (D : Type) (print : D → String) (it : BatchQueryItem D) :
    GqlRequestBody :=
  { query := it.query.toQueryString print
    vars := it.vars.getD (Json.obj [])
    operationName :=
      match it.operationName with
      | some s => if s = "" then none else some s
      | none => none }

/-- The single `app.inject` request that `batchQueries` builds
(src/index.ts:195-218). -/
def buildBatchRequest (D : Type) (print : D → String) (url : String)
    (globalHeaders globalCookies : List (String × String))
    (queries : List (BatchQueryItem D))
    (qHeaders qCookies : List (String × String)) :
    InjectedRequest (List GqlRequestBody) :=
  { method := "POST"
    url := url
    cookies := spread globalCookies qCookies
    headers := spread (spread defaultContentTypeHeader globalHeaders) qHeaders
    payload := queries.map (batchBodyEntry D print) }

/-- The per-call options of `batchQueries`:
`Pick<QueryOptions, "cookies" | "headers">` (src/index.ts:190). -/
structure BatchOptions where
  headers : List (String × String) := []
  cookies : List (String × String) := []

/-- The `batchQueries` function (src/index.ts:184-221): builds one request,
injects it once, and returns the parsed JSON of the response. -/
def batchQueries (D : Type) (print : D → String)
    (injectB : InjectedRequest (List GqlRequestBody) → Response) (url : String)
    (globalHeaders globalCookies : List (String × String))
    (queries : List (BatchQueryItem D)) (qopts : BatchOptions) :
    List (InjectedRequest (List GqlRequestBody)) × Json :=
  let req := buildBatchRequest D print url globalHeaders globalCookies queries
    qopts.headers qopts.cookies
  ([req], (injectB req).json)

/-- The mutable client closure state: the `let headers` / `let cookies`
bindings of `createMercuriusTestClient` (src/index.ts:139-140). -/
structure ClientState where
  headers : List (String × String)
  cookies : List (String × String)

/-- `setHeaders` (src/index.ts:176-178): reassigns the `headers` binding. -/
def setHeaders (s : ClientState) (newHeaders : List (String × String)) :
    ClientState :=
  { s with headers := newHeaders }

/-- `setCookies` (src/index.ts:180-182): reassigns the `cookies` binding. -/
def setCookies (s : ClientState) (newCookies : List (String × String)) :
    ClientState :=
  { s with cookies := newCookies }

/-- The options object of `createMercuriusTestClient` (src/index.ts:48-62). -/
structure ClientOpts where
  headers : Option (List (String × String)) := none
  url : Option String := none
  cookies : Option (List (String × String)) := none

/-- Initial closure state: `opts.headers || {}`, `opts.cookies || {}`
(src/index.ts:139-140). -/
def initialClientState (opts : ClientOpts) : ClientState :=
  { headers := opts.headers.getD [], cookies := opts.cookies.getD [] }

/-- The record returned by `createMercuriusTestClient` (src/index.ts:277-287).
`query`/`mutate` close over the mutable state, modelled by taking the current
`ClientState` explicitly; `headers`/`cookies` are the values the record fields
captured at construction. -/
structure TestClient (D : Type) where
  query : ClientState → QueryInput D → QueryOptions →
    List (InjectedRequest GqlRequestBody) × Json
  mutate : ClientState → QueryInput D → QueryOptions →
    List (InjectedRequest GqlRequestBody) × Json
  setHeaders : ClientState → List (String × String) → ClientState
  setCookies : ClientState → List (String × String) → ClientState
  batchQueries : ClientState → List (BatchQueryItem D) → BatchOptions →
    List (InjectedRequest (List GqlRequestBody)) × Json
  headers : List (String × String)
  cookies : List (String × String)

/-- `createMercuriusTestClient` (src/index.ts:37-287): builds the query and
batch functions over `opts.url || "/graphql"` and returns the record with
`mutate: query` (the same function object). -/
def createMercuriusTestClient (D : Type) (print : D → String)
    (inject : InjectedRequest GqlRequestBody → Response)
    (injectB : InjectedRequest (List GqlRequestBody) → Response)
    (opts : ClientOpts) : TestClient D :=
  let url := resolveUrl opts.url
  let q := fun (s : ClientState) => query D print inject url s.headers s.cookies
  { query := q
    mutate := q
    setHeaders := setHeaders
    setCookies := setCookies
    batchQueries := fun (s : ClientState) =>
      batchQueries D print injectB url s.headers s.cookies
    headers := (initialClientState opts).headers
    cookies := (initialClientState opts).cookies }

/-- The WebSocket URL built by `subscribe`:
`ws://localhost:${port}${url}` (src/index.ts:249). -/
def wsUrl (port : Nat) (url : String) : String :=
  "ws://localhost:" ++ toString port ++ url

/-! ## Subscription client

`src/subscription/client.ts` is not among the available sources; the
definitions below are modelled from the specification (§3, §4.1, §4.3, §4.4,
§6, §7) and marked as such.  The wiring of `subscribe` around the client
(src/index.ts:223-275) is embedded from the source. -/

/-- Modelled from the spec (§6): outbound client frames of the subscription
subprotocol.  Identifiers are the registry's numeric identifiers (the codec
writes them as string keys on the wire). -/
inductive ClientMsg (V P : Type) where
  | connectionInit (payload : P) : ClientMsg V P
  | start (id : Nat) (query : String) (vars : V) : ClientMsg V P
  | stop (id : Nat) : ClientMsg V P
deriving DecidableEq

/-- Modelled from the spec (§6): inbound server frames; `unknown` stands for
any unrecognized message type (ignored for forward compatibility, §4.1). -/
inductive ServerMsg (P : Type) where
  | connectionAck : ServerMsg P
  | connectionError (payload : P) : ServerMsg P
  | data (id : Nat) (payload : P) : ServerMsg P
  | error (id : Option Nat) (payload : P) : ServerMsg P
  | complete (id : Nat) : ServerMsg P
  | ka : ServerMsg P
  | unknown : ServerMsg P
deriving DecidableEq

/-- Modelled from the spec (§4.3): connection lifecycle states (§4.1). -/
inductive ConnState where
  | connecting : ConnState
  | handshaking : ConnState
  | ready : ConnState
  | closing : ConnState
  | closed : ConnState
  | failed : ConnState
deriving DecidableEq

/-- Modelled from the spec (§4.3): the Subscription Registry.  `nextId` is the
strictly increasing identifier source; `entries` maps live identifiers to
subscriber callbacks (`C`). -/
structure Registry (C : Type) where
  nextId : Nat
  entries : List (Nat × C)
deriving DecidableEq

/-- Lookup of a registry key, first match wins. -/
def lookupNat (k : Nat) : List (Nat × C) → Option C
  | [] => none
  | p :: ps => if p.1 = k then some p.2 else lookupNat k ps

/-- Modelled from the spec (§4.3): the empty registry of a fresh connection;
identifier allocation starts at 1. -/
def Registry.init (C : Type) : Registry C := { nextId := 1, entries := [] }

/-- Modelled from the spec (§4.3): `register(callback) -> id` allocates the
next identifier and stores the callback under it. -/
def Registry.register (r : Registry C) (cb : C) : Nat × Registry C :=
  (r.nextId, { nextId := r.nextId + 1, entries := (r.nextId, cb) :: r.entries })

/-- Modelled from the spec (§4.3): `lookup(id) -> callback?`. -/
def Registry.lookup (r : Registry C) (id : Nat) : Option C :=
  lookupNat id r.entries

/-- Modelled from the spec (§4.3): `remove(id)`. -/
def Registry.remove (r : Registry C) (id : Nat) : Registry C :=
  { r with entries := r.entries.filter (fun p => p.1 ≠ id) }

/-- A registry operation issued by the facade: registration of a new
subscriber or removal of an identifier (unsubscribe/complete). -/
inductive RegOp (C : Type) where
  | register (cb : C) : RegOp C
  | remove (id : Nat) : RegOp C

/-- Apply one registry operation. -/
def Registry.applyOp (r : Registry C) : RegOp C → Registry C
  | .register cb => (r.register cb).2
  | .remove id => r.remove id

/-- Run a sequence of registry operations from a given registry. -/
def Registry.runOps (r : Registry C) : List (RegOp C) → Registry C
  | [] => r
  | op :: ops => (r.applyOp op).runOps ops

/-- The identifiers handed out by the `register` calls of an operation
sequence, in call order. -/
def allocIds (r : Registry C) : List (RegOp C) → List Nat
  | [] => []
  | .register cb :: ops => r.nextId :: allocIds (r.applyOp (.register cb)) ops
  | .remove id :: ops => allocIds (r.applyOp (.remove id)) ops

/-- Modelled from the spec (§3, §4.1, §4.4): the state of one
`SubscriptionClient`.  `sent` is the trace of frames written to the socket,
`closeEvents` counts emitted close events. -/
structure SubscriptionClient (C V P : Type) where
  state : ConnState
  registry : Registry C
  sent : List (ClientMsg V P)
  closeEvents : Nat
deriving DecidableEq

/-- Modelled from the spec (§4.1): a fresh client, socket opening. -/
def SubscriptionClient.init (C V P : Type) : SubscriptionClient C V P :=
  { state := .connecting, registry := Registry.init C, sent := [], closeEvents := 0 }

/-- Modelled from the spec (§4.4): `createSubscription` requires `Ready`;
it registers the callback under a fresh identifier and sends a "start" frame
carrying that identifier.  Outside `Ready` it fails deterministically
(returns no identifier, §3). -/
def SubscriptionClient.createSubscription (s : SubscriptionClient C V P)
    (q : String) (vars : V) (cb : C) : Option Nat × SubscriptionClient C V P :=
  if s.state = .ready then
    let (id, reg) := s.registry.register cb
    (some id, { s with registry := reg, sent := s.sent ++ [.start id q vars] })
  else
    (none, s)

/-- Modelled from the spec (§4.4): `unsubscribe(id)` sends a "stop" frame for
that identifier and removes it from the Registry immediately. -/
def SubscriptionClient.unsubscribeOne (s : SubscriptionClient C V P) (id : Nat) :
    SubscriptionClient C V P :=
  { s with registry := s.registry.remove id, sent := s.sent ++ [.stop id] }

/-- Modelled from the spec (§4.4): `close()` sends no per-subscription stop
frames, clears the Registry, closes the socket, and is idempotent (a second
call emits no duplicate close event). -/
def SubscriptionClient.close (s : SubscriptionClient C V P) :
    SubscriptionClient C V P :=
  { state := .closed
    registry := { s.registry with entries := [] }
    sent := s.sent
    closeEvents := if s.state = .closed then s.closeEvents else s.closeEvents + 1 }

/-- Modelled from the spec (§4.1, §7): socket-level events driving the
receive loop. -/
inductive ConnEvent (P : Type) where
  | socketOpen : ConnEvent P
  | recv (m : ServerMsg P) : ConnEvent P
  | socketClose : ConnEvent P
  | socketError : ConnEvent P
deriving DecidableEq

/-- Observable outputs of one receive-loop step: a subscriber callback
invocation with a frame payload, the connection success callback
(`connectionCallback`), or the failure callback
(`failedConnectionCallback`, carrying the error payload when one exists). -/
inductive OutEvent (C P : Type) where
  | invoke (cb : C) (payload : P) : OutEvent C P
  | success : OutEvent C P
  | failure (err : Option P) : OutEvent C P
deriving DecidableEq

/-- Modelled from the spec (§4.1, §7): one step of the receive loop.
`Connecting`: socket-open starts the handshake by sending "connection_init"
(the init payload is `initPayload`); a socket close/error before `Ready`
is a handshake failure, surfaced once via the failure callback.
`Handshaking`: "connection_ack" reaches `Ready` and fires the success
callback; "connection_error" or socket close/error fails the connection and
fires the failure callback.
`Ready`: "data" frames are routed by registry lookup (unknown ids dropped
silently); an "error" frame with an id is terminal for that subscription
(callback invoked, entry removed); an untagged "error" or a socket
close/error is fatal to the connection, orphaning all subscriptions (their
callbacks receive no further frames, and the handshake callbacks stay
mutually exclusive, §8); "complete" removes the id; "ka" and unrecognized
frames are ignored.  `Closing`/`Closed`/`Failed`: every inbound event is
ignored. -/
def step (initPayload : P) (s : SubscriptionClient C V P) :
    ConnEvent P → SubscriptionClient C V P × List (OutEvent C P)
  | .socketOpen =>
    match s.state with
    | .connecting =>
      ({ s with state := .handshaking,
                sent := s.sent ++ [.connectionInit initPayload] }, [])
    | _ => (s, [])
  | .recv m =>
    match s.state, m with
    | .handshaking, .connectionAck => ({ s with state := .ready }, [.success])
    | .handshaking, .connectionError p =>
      ({ s with state := .failed }, [.failure (some p)])
    | .ready, .data id p =>
      match s.registry.lookup id with
      | some cb => (s, [.invoke cb p])
      | none => (s, [])
    | .ready, .error (some id) p =>
      match s.registry.lookup id with
      | some cb => ({ s with registry := s.registry.remove id }, [.invoke cb p])
      | none => (s, [])
    | .ready, .error none _ => ({ s with state := .failed }, [])
    | .ready, .complete id => ({ s with registry := s.registry.remove id }, [])
    | _, _ => (s, [])
  | .socketClose =>
    match s.state with
    | .connecting => ({ s with state := .failed }, [.failure none])
    | .handshaking => ({ s with state := .failed }, [.failure none])
    | .ready => ({ s with state := .failed }, [])
    | _ => (s, [])
  | .socketError =>
    match s.state with
    | .connecting => ({ s with state := .failed }, [.failure none])
    | .handshaking => ({ s with state := .failed }, [.failure none])
    | .ready => ({ s with state := .failed }, [])
    | _ => (s, [])

/-- Run the receive loop over a list of socket events, collecting outputs
in arrival order (frames are processed strictly sequentially, §4.1). -/
def run (initPayload : P) (s : SubscriptionClient C V P) :
    List (ConnEvent P) → SubscriptionClient C V P × List (OutEvent C P)
  | [] => (s, [])
  | e :: es =>
    let (s1, out1) := step initPayload s e
    let (s2, out2) := run initPayload s1 es
    (s2, out1 ++ out2)

/-- The connection-level callback firings among a step's outputs (subscriber
invocations filtered out). -/
def connCbs : List (OutEvent C P) → List (OutEvent C P)
  | [] => []
  | .invoke _ _ :: es => connCbs es
  | .success :: es => OutEvent.success :: connCbs es
  | .failure e :: es => OutEvent.failure e :: connCbs es

/-! ### `subscribe` wiring, embedded from `src/index.ts:223-275` -/

/-- The `{topic, payload}` argument the subscription client passes to the
callback registered by `subscribe` (src/index.ts:255). -/
structure TopicPayload (Q : Type) where
  topic : String
  payload : Q

/-- The callback `subscribe` registers with `createSubscription`
(src/index.ts:255-257): `({payload}) => { onData(payload) }`. -/
def onDataWrapper (onData : Q → R) (env : TopicPayload Q) : R :=
  onData env.payload

/-- The configuration object `subscribe` passes to `new SubscriptionClient`
(src/index.ts:249-269); `failedConnectionCallback: reject` wires the
connection failure straight into the promise rejection. -/
structure SubscriptionClientConfig (P E R : Type) where
  connectionInitPayload : P
  failedConnectionCallback : E → R

/-- `subscribe` builds its client configuration with
`connectionInitPayload: initPayload` and `failedConnectionCallback: reject`
(src/index.ts:250, 268). -/
def subscribeClientConfig (initPayload : P) (reject : E → R) :
    SubscriptionClientConfig P E R :=
  { connectionInitPayload := initPayload, failedConnectionCallback := reject }

/-- The `unsubscribe` function of the handle `subscribe` resolves with
(src/index.ts:262-264): `unsubscribe() { subscriptionClient.close(); }`. -/
def subscribeUnsubscribeHandle (s : SubscriptionClient C V P) :
    SubscriptionClient C V P :=
  s.close

/-- The fixed delay, in milliseconds, between subscription creation and
promise resolution (src/index.ts:266). -/
def subscribeResolveDelay : Nat := 20

/-- The promise-lifecycle state of one `subscribe` call: whether
`createSubscription` has run, whether a resolve timer is pending (and with
which delay), and whether the promise has been resolved. -/
structure SubscribePromiseState where
  started : Bool
  timerDelay : Option Nat
  resolved : Bool
deriving DecidableEq

/-- Events of the `subscribe` promise lifecycle: the connection callback
firing (src/index.ts:251-267) and the scheduled timer firing. -/
inductive SubscribeEvent where
  | connReady : SubscribeEvent
  | timerFire : SubscribeEvent
deriving DecidableEq

/-- One step of the `subscribe` promise lifecycle (src/index.ts:251-267):
the connection callback first calls `createSubscription`, then schedules the
resolve with `setTimeout(..., 20)`; the promise is resolved only when that
timer fires. -/
def subscribePromiseStep (s : SubscribePromiseState) :
    SubscribeEvent → SubscribePromiseState
  | .connReady => { s with started := true, timerDelay := some subscribeResolveDelay }
  | .timerFire =>
    match s.timerDelay with
    | some _ => { s with resolved := true }
    | none => s

/-- Run the `subscribe` promise lifecycle from its initial state (nothing
started, no timer, unresolved). -/
def subscribePromiseRun (evs : List SubscribeEvent) : SubscribePromiseState :=
  evs.foldl subscribePromiseStep { started := false, timerDelay := none, resolved := false }

/-! ## Helper lemmas -/

theorem lookupNat_eq_of_mem {C : Type} (l : List (Nat × C))
    (hnd : (l.map Prod.fst).Nodup) (k : Nat) (c : C) (hmem : (k, c) ∈ l) :
    lookupNat k l = some c := by
  induction l with
  | nil => cases hmem
  | cons p ps ih =>
    rcases List.mem_cons.mp hmem with h | h
    · subst h
      simp [lookupNat]
    · have hk : k ∈ ps.map Prod.fst := List.mem_map.mpr ⟨(k, c), h, rfl⟩
      have hne : p.1 ≠ k := by
        intro he
        exact (List.nodup_cons.mp hnd).1 (he ▸ hk)
      simp [lookupNat, hne]
      exact ih (List.nodup_cons.mp hnd).2 h

/-- Well-formedness of a registry: every live key is below the allocation
counter and keys are distinct. -/
def RegistryWF (r : Registry C) : Prop :=
  (∀ k ∈ r.entries.map Prod.fst, k < r.nextId) ∧ (r.entries.map Prod.fst).Nodup

theorem registryWF_init (C : Type) : RegistryWF (Registry.init C) := by
  constructor <;> simp [Registry.init]

theorem registryWF_applyOp {C : Type} (r : Registry C) (op : RegOp C)
    (h : RegistryWF r) : RegistryWF (r.applyOp op) := by
  obtain ⟨hb, hn⟩ := h
  cases op with
  | register cb =>
    simp only [RegistryWF, Registry.applyOp, Registry.register, List.map_cons]
    constructor
    · intro k hk
      rcases List.mem_cons.mp hk with h | h
      · omega
      · have := hb k h
        omega
    · refine List.nodup_cons.mpr ⟨?_, hn⟩
      intro hmem
      exact absurd (hb _ hmem) (by omega)
  | remove id =>
    have hsub : ((r.entries.filter (fun p => p.1 ≠ id)).map Prod.fst).Sublist
        (r.entries.map Prod.fst) :=
      (List.filter_sublist r.entries).map Prod.fst
    constructor
    · intro k hk
      exact hb k (hsub.subset hk)
    · exact hn.sublist hsub

theorem registryWF_runOps {C : Type} (ops : List (RegOp C)) (r : Registry C)
    (h : RegistryWF r) : RegistryWF (r.runOps ops) := by
  induction ops generalizing r with
  | nil => exact h
  | cons op ops ih => exact ih _ (registryWF_applyOp r op h)

theorem allocIds_lower {C : Type} (ops : List (RegOp C)) (r : Registry C) :
    ∀ i ∈ allocIds r ops, r.nextId ≤ i := by
  induction ops generalizing r with
  | nil => simp [allocIds]
  | cons op ops ih =>
    cases op with
    | register cb =>
      intro i hi
      rcases List.mem_cons.mp hi with h | h
      · omega
      · have := ih ((r.register cb).2) i h
        simp [Registry.register] at this
        omega
    | remove id =>
      intro i hi
      have := ih (r.remove id) i hi
      simpa [Registry.remove] using this

theorem allocIds_pairwise {C : Type} (ops : List (RegOp C)) (r : Registry C) :
    List.Pairwise (· < ·) (allocIds r ops) := by
  induction ops generalizing r with
  | nil => simp [allocIds]
  | cons op ops ih =>
    cases op with
    | register cb =>
      refine List.pairwise_cons.mpr ⟨?_, ih _⟩
      intro j hj
      have := allocIds_lower ops ((r.register cb).2) j hj
      simp [Registry.register] at this
      omega
    | remove id => exact ih _

theorem connCbs_append {C P : Type} (a b : List (OutEvent C P)) :
    connCbs (a ++ b) = connCbs a ++ connCbs b := by
  induction a with
  | nil => rfl
  | cons e es ih => cases e <;> simp [connCbs, ih]

/-- The callback-trace invariant of the connection state machine: before the
handshake completes no connection callback has fired; in `Ready` exactly the
success callback has fired; in `Failed` either the success callback (a fatal
error after `Ready`) or exactly one failure callback has fired. -/
def cbInv (st : ConnState) (acc : List (OutEvent C P)) : Prop :=
  match st with
  | .connecting => connCbs acc = []
  | .handshaking => connCbs acc = []
  | .ready => connCbs acc = [.success]
  | .failed => connCbs acc = [.success] ∨ ∃ e, connCbs acc = [.failure e]
  | .closing =>
    connCbs acc = [] ∨ connCbs acc = [.success] ∨ ∃ e, connCbs acc = [.failure e]
  | .closed =>
    connCbs acc = [] ∨ connCbs acc = [.success] ∨ ∃ e, connCbs acc = [.failure e]

theorem cbInv_step {C V P : Type} (ip : P) (s : SubscriptionClient C V P)
    (acc : List (OutEvent C P)) (e : ConnEvent P) (h : cbInv s.state acc) :
    cbInv (step ip s e).1.state (acc ++ (step ip s e).2) := by
  obtain ⟨st, reg, snt, ce⟩ := s
  cases e with
  | socketOpen => cases st <;> simp_all [step, cbInv, connCbs_append, connCbs]
  | recv m =>
    cases st <;> cases m <;>
      simp_all [step, cbInv, connCbs_append, connCbs]
    · rename_i id p
      cases hl : Registry.lookup reg id <;>
        simp_all [cbInv, connCbs_append, connCbs]
    · rename_i oid p
      cases oid with
      | none => simp_all [cbInv, connCbs_append, connCbs]
      | some id =>
        cases hl : Registry.lookup reg id <;>
          simp_all [cbInv, connCbs_append, connCbs]
  | socketClose => cases st <;> simp_all [step, cbInv, connCbs_append, connCbs]
  | socketError => cases st <;> simp_all [step, cbInv, connCbs_append, connCbs]

theorem cbInv_run {C V P : Type} (ip : P) (es : List (ConnEvent P))
    (s : SubscriptionClient C V P) (acc : List (OutEvent C P))
    (h : cbInv s.state acc) :
    cbInv (run ip s es).1.state (acc ++ (run ip s es).2) := by
  induction es generalizing s acc with
  | nil => simpa [run] using h
  | cons e es ih =>
    have h1 := cbInv_step ip s acc e h
    have h2 := ih (step ip s e).1 (acc ++ (step ip s e).2) h1
    simpa [run, List.append_assoc] using h2

/-- The promise-lifecycle invariant of `subscribe`: a pending timer implies
the subscription was created, resolution implies the subscription was
created, and any pending timer has the fixed 20 ms delay. -/
def promiseInv (s : SubscribePromiseState) : Prop :=
  (s.timerDelay ≠ none → s.started = true) ∧
  (s.resolved = true → s.started = true) ∧
  (s.timerDelay = none ∨ s.timerDelay = some subscribeResolveDelay)

theorem promiseInv_step (s : SubscribePromiseState) (e : SubscribeEvent)
    (h : promiseInv s) : promiseInv (subscribePromiseStep s e) := by
  obtain ⟨h1, h2, h3⟩ := h
  cases e with
  | connReady => simp [subscribePromiseStep, promiseInv]
  | timerFire =>
    cases ht : s.timerDelay with
    | none => simp_all [subscribePromiseStep, promiseInv]
    | some d =>
      refine ⟨?_, ?_, ?_⟩ <;>
        simp_all [subscribePromiseStep, promiseInv]

theorem promiseInv_foldl (evs : List SubscribeEvent) (s : SubscribePromiseState)
    (h : promiseInv s) : promiseInv (evs.foldl subscribePromiseStep s) := by
  induction evs generalizing s with
  | nil => exact h
  | cons e evs ih => exact ih _ (promiseInv_step s e h)

/-! ## Concrete example clients used by witnesses and counterexamples -/

/-- A ready connection with two live subscriptions, ids 1 and 2. -/
def exampleReadyClient : SubscriptionClient String Unit Nat :=
  { state := .ready
    registry := { nextId := 3, entries := [(1, "cbA"), (2, "cbB")] }
    sent := []
    closeEvents := 0 }

/-- A ready connection with one live subscription (id 1) whose "start" frame
has been sent. -/
def exampleSubscribedClient : SubscriptionClient String Unit Unit :=
  { state := .ready
    registry := { nextId := 2, entries := [(1, "cbA")] }
    sent := [ClientMsg.connectionInit (), ClientMsg.start 1 "subscription onX" ()]
    closeEvents := 0 }

/-! ## Claim theorems -/

/-- C1: in `Ready`, a "data" frame tagged with a registered subscription's id
invokes exactly that subscription's callback, with exactly the frame's
payload, and no other subscription's callback (the step's output is the
single invocation); moreover the callback `subscribe` registers
(src/index.ts:255-257) passes exactly the envelope's payload to the caller's
`onData`. -/
theorem data_frame_routed_to_matching_callback
    {C V P Q R : Type} (ip : P) (s : SubscriptionClient C V P)
    (hready : s.state = ConnState.ready)
    (hnd : (s.registry.entries.map Prod.fst).Nodup)
    (id : Nat) (cb : C) (hmem : (id, cb) ∈ s.registry.entries) (payload : P) :
    (step ip s (ConnEvent.recv (ServerMsg.data id payload))).2
      = [OutEvent.invoke cb payload] ∧
    (step ip s (ConnEvent.recv (ServerMsg.data id payload))).1 = s ∧
    ∀ (onData : Q → R) (env : TopicPayload Q),
      onDataWrapper onData env = onData env.payload := by
  have hl : lookupNat id s.registry.entries = some cb :=
    lookupNat_eq_of_mem _ hnd id cb hmem
  obtain ⟨st, reg, snt, ce⟩ := s
  subst hready
  refine ⟨?_, ?_, fun _ _ => rfl⟩ <;> simp [step, Registry.lookup, hl]

/-- Witness for C1 at a concrete two-subscription client: the data frame for
id 1 is delivered to `cbA` with payload 7. -/
theorem data_frame_routed_witness :
    (step (0 : Nat) exampleReadyClient
        (ConnEvent.recv (ServerMsg.data 1 (7 : Nat)))).2
      = [OutEvent.invoke "cbA" 7] :=
  (data_frame_routed_to_matching_callback (Q := Nat) (R := Nat) 0
    exampleReadyClient rfl (by decide) 1 "cbA" (by decide) 7).1

/-- C2 counterexample: on a concrete client with the live subscription id 1,
the resolved handle's `unsubscribe` (which calls `subscriptionClient.close()`,
src/index.ts:262-264) sends no "stop" frame at all -- the sent-frame trace is
unchanged -- and clears the whole Registry and closes the socket. -/
theorem unsubscribe_handle_sends_no_stop_cex :
    ClientMsg.stop 1 ∉ (subscribeUnsubscribeHandle exampleSubscribedClient).sent ∧
    (subscribeUnsubscribeHandle exampleSubscribedClient).sent
      = exampleSubscribedClient.sent ∧
    (subscribeUnsubscribeHandle exampleSubscribedClient).registry.entries = [] ∧
    (subscribeUnsubscribeHandle exampleSubscribedClient).state
      = ConnState.closed := by
  decide

/-- C2 (amended): the handle's `unsubscribe` closes the whole subscription
client: it sends no "stop" frame, clears the entire Registry immediately
(client-side bookkeeping is eager, without waiting for the server's
"complete"), and closes the socket. -/
theorem unsubscribe_handle_closes_whole_client
    {C V P : Type} (s : SubscriptionClient C V P) :
    subscribeUnsubscribeHandle s = s.close ∧
    (subscribeUnsubscribeHandle s).sent = s.sent ∧
    (subscribeUnsubscribeHandle s).registry.entries = [] ∧
    (subscribeUnsubscribeHandle s).state = ConnState.closed :=
  ⟨rfl, rfl, rfl, rfl⟩

/-- C3: over every socket-event trace from a fresh connection, the
connection-level callbacks fire at most once each and are mutually exclusive
(the trace of firings is empty, exactly one success, or exactly one failure);
a connection that reached `Ready` has fired exactly the success callback (so
the success path never runs after a failure has fired); and `subscribe` wires
`failedConnectionCallback` directly to the promise's `reject`
(src/index.ts:268), so the promise is rejected with exactly the error passed
to the failure callback. -/
theorem handshake_failure_rejected_once
    {C V P E R : Type} (ip : P) (es : List (ConnEvent P)) :
    (connCbs (run ip (SubscriptionClient.init C V P) es).2 = [] ∨
      connCbs (run ip (SubscriptionClient.init C V P) es).2 = [OutEvent.success] ∨
      ∃ e, connCbs (run ip (SubscriptionClient.init C V P) es).2
        = [OutEvent.failure e]) ∧
    ((run ip (SubscriptionClient.init C V P) es).1.state = ConnState.ready →
      connCbs (run ip (SubscriptionClient.init C V P) es).2
        = [OutEvent.success]) ∧
    ∀ (reject : E → R) (err : E),
      (subscribeClientConfig ip reject).failedConnectionCallback err
        = reject err := by
  have h0 : cbInv (SubscriptionClient.init C V P).state
      ([] : List (OutEvent C P)) := by
    simp [SubscriptionClient.init, cbInv, connCbs]
  have h := cbInv_run ip es (SubscriptionClient.init C V P) [] h0
  simp only [List.nil_append] at h
  refine ⟨?_, ?_, fun _ _ => rfl⟩
  · cases hs : (run ip (SubscriptionClient.init C V P) es).1.state <;>
      rw [hs] at h <;> simp [cbInv] at h <;> tauto
  · intro hs
    rw [hs] at h
    exact h

/-- Witness for C3 at the happy-path trace: socket opens, server acks, and
exactly the success callback has fired. -/
theorem handshake_callbacks_witness :
    connCbs (run (0 : Nat) (SubscriptionClient.init Unit Unit Nat)
        [ConnEvent.socketOpen, ConnEvent.recv ServerMsg.connectionAck]).2
      = [OutEvent.success] :=
  (handshake_failure_rejected_once (E := Unit) (R := Unit) 0
    [ConnEvent.socketOpen, ConnEvent.recv ServerMsg.connectionAck]).2.1 (by decide)

/-- C4: over every event sequence of the `subscribe` promise lifecycle, the
promise is resolved only if `createSubscription` has already been called (the
"start" frame has been issued), and any pending resolve timer carries the
fixed 20 ms delay scheduled by `setTimeout(..., 20)` (src/index.ts:260-266). -/
theorem subscribe_resolves_only_after_start (evs : List SubscribeEvent) :
    ((subscribePromiseRun evs).resolved = true →
      (subscribePromiseRun evs).started = true) ∧
    ((subscribePromiseRun evs).timerDelay = none ∨
      (subscribePromiseRun evs).timerDelay = some 20) ∧
    subscribeResolveDelay = 20 := by
  have h := promiseInv_foldl evs
    { started := false, timerDelay := none, resolved := false }
    (by simp [promiseInv])
  obtain ⟨h1, h2, h3⟩ := h
  refine ⟨h2, ?_, rfl⟩
  simpa [subscribePromiseRun, subscribeResolveDelay] using h3

/-- Witness for C4: after the connection callback runs and the timer fires,
the promise is resolved and the subscription had indeed been started. -/
theorem subscribe_resolves_witness :
    (subscribePromiseRun [SubscribeEvent.connReady, SubscribeEvent.timerFire]).started
      = true :=
  (subscribe_resolves_only_after_start
    [SubscribeEvent.connReady, SubscribeEvent.timerFire]).1 (by decide)

/-- C5: `close()` is idempotent -- a second call changes nothing and emits no
duplicate close event -- and it clears the Registry and closes the socket
without sending any per-subscription "stop" frame; likewise for the
`unsubscribe` handle, which invokes `close()`. -/
theorem close_idempotent {C V P : Type} (s : SubscriptionClient C V P) :
    s.close.close = s.close ∧
    s.close.close.closeEvents = s.close.closeEvents ∧
    s.close.sent = s.sent ∧
    s.close.registry.entries = [] ∧
    s.close.state = ConnState.closed ∧
    subscribeUnsubscribeHandle (subscribeUnsubscribeHandle s)
      = subscribeUnsubscribeHandle s :=
  ⟨rfl, rfl, rfl, rfl, rfl, rfl⟩

/-- C6: `query` issues exactly one POST injection to the configured endpoint;
its body has `query` (the string as-is, or the printed document), `variables`
(defaulting to `{}`) and `operationName` (defaulting to `null`); cookie
lookups give per-call entries precedence over global ones, and header lookups
give per-call entries precedence over global ones, which take precedence over
the default content-type header; and the call resolves with the injected
response parsed as JSON. -/
theorem query_issues_single_post_injection
    {D : Type} (print : D → String)
    (inject : InjectedRequest GqlRequestBody → Response) (url : String)
    (gh gc : List (String × String)) (q : QueryInput D) (opts : QueryOptions) :
    (query D print inject url gh gc q opts).1
      = [buildQueryRequest D print url gh gc q opts] ∧
    (query D print inject url gh gc q opts).2
      = (inject (buildQueryRequest D print url gh gc q opts)).json ∧
    (buildQueryRequest D print url gh gc q opts).method = "POST" ∧
    (buildQueryRequest D print url gh gc q opts).url = url ∧
    (buildQueryRequest D print url gh gc q opts).payload.query
      = q.toQueryString print ∧
    (∀ s, (QueryInput.str s : QueryInput D).toQueryString print = s) ∧
    (∀ d, (QueryInput.doc d : QueryInput D).toQueryString print = print d) ∧
    (buildQueryRequest D print url gh gc q opts).payload.vars
      = opts.vars.getD (Json.obj []) ∧
    (buildQueryRequest D print url gh gc q opts).payload.operationName
      = opts.operationName ∧
    (∀ k, lookupStr k (buildQueryRequest D print url gh gc q opts).headers
      = firstSome (lookupStr k opts.headers)
          (firstSome (lookupStr k gh) (lookupStr k defaultContentTypeHeader))) ∧
    (∀ k, lookupStr k (buildQueryRequest D print url gh gc q opts).cookies
      = firstSome (lookupStr k opts.cookies) (lookupStr k gc)) := by
  refine ⟨rfl, rfl, rfl, rfl, rfl, fun _ => rfl, fun _ => rfl, rfl, rfl, ?_, ?_⟩
  · intro k
    simp [buildQueryRequest, lookupStr_spread]
  · intro k
    simp [buildQueryRequest, lookupStr_spread]

/-- C7: registry identifiers.  After any sequence of register/remove
operations from a fresh registry, the live identifiers are pairwise distinct
(at most one live Subscription per identifier), the identifiers handed out by
successive registrations are strictly increasing, and a fresh registration
allocates an identifier that is strictly greater than -- in particular never
equal to -- every identifier still registered. -/
theorem registry_ids_unique_and_increasing
    {C : Type} (ops : List (RegOp C)) (cb : C) :
    (((Registry.init C).runOps ops).entries.map Prod.fst).Nodup ∧
    List.Pairwise (· < ·) (allocIds (Registry.init C) ops) ∧
    (((Registry.init C).runOps ops).register cb).1
      ∉ ((Registry.init C).runOps ops).entries.map Prod.fst ∧
    ∀ k ∈ ((Registry.init C).runOps ops).entries.map Prod.fst,
      k < (((Registry.init C).runOps ops).register cb).1 := by
  have hwf := registryWF_runOps ops (Registry.init C) (registryWF_init C)
  obtain ⟨hb, hn⟩ := hwf
  refine ⟨hn, allocIds_pairwise ops (Registry.init C), ?_, ?_⟩
  · intro hmem
    exact absurd (hb _ hmem) (by simp [Registry.register])
  · intro k hk
    simpa [Registry.register] using hb k hk

/-- Witness for C7 at a concrete operation sequence (register, register,
remove 1): the next allocated identifier (3) is strictly greater than the
still-registered identifier 2. -/
theorem registry_ids_witness :
    (2 : Nat) <
      (((Registry.init String).runOps
        [RegOp.register "a", RegOp.register "b", RegOp.remove 1]).register "c").1 :=
  (registry_ids_unique_and_increasing
    [RegOp.register "a", RegOp.register "b", RegOp.remove 1] "c").2.2.2 2 (by decide)

/-- C8: the `mutate` field of the record returned by
`createMercuriusTestClient` is the very same function as its `query` field
(`mutate: query`, src/index.ts:279), so on every state, document and options
they produce identical injected requests and identical results. -/
theorem mutate_is_query {D : Type} (print : D → String)
    (inject : InjectedRequest GqlRequestBody → Response)
    (injectB : InjectedRequest (List GqlRequestBody) → Response)
    (opts : ClientOpts) :
    (createMercuriusTestClient D print inject injectB opts).mutate
      = (createMercuriusTestClient D print inject injectB opts).query ∧
    ∀ (s : ClientState) (q : QueryInput D) (o : QueryOptions),
      (createMercuriusTestClient D print inject injectB opts).mutate s q o
        = (createMercuriusTestClient D print inject injectB opts).query s q o :=
  ⟨rfl, fun _ _ _ => rfl⟩

/-- C9: after `setHeaders`/`setCookies`, every subsequent `query`, `mutate`
and `batchQueries` call merges from the new global values, while the
`headers`/`cookies` fields of the returned record still hold the values
captured at construction (`opts.headers || {}` / `opts.cookies || {}`). -/
theorem set_headers_updates_state_not_snapshot
    {D : Type} (print : D → String)
    (inject : InjectedRequest GqlRequestBody → Response)
    (injectB : InjectedRequest (List GqlRequestBody) → Response)
    (opts : ClientOpts) (h2 c2 : List (String × String))
    (q : QueryInput D) (qopts : QueryOptions)
    (queries : List (BatchQueryItem D)) (bopts : BatchOptions) :
    (setCookies (setHeaders (initialClientState opts) h2) c2).headers = h2 ∧
    (setCookies (setHeaders (initialClientState opts) h2) c2).cookies = c2 ∧
    (createMercuriusTestClient D print inject injectB opts).query
        (setCookies (setHeaders (initialClientState opts) h2) c2) q qopts
      = query D print inject (resolveUrl opts.url) h2 c2 q qopts ∧
    (createMercuriusTestClient D print inject injectB opts).mutate
        (setCookies (setHeaders (initialClientState opts) h2) c2) q qopts
      = query D print inject (resolveUrl opts.url) h2 c2 q qopts ∧
    (createMercuriusTestClient D print inject injectB opts).batchQueries
        (setCookies (setHeaders (initialClientState opts) h2) c2) queries bopts
      = batchQueries D print injectB (resolveUrl opts.url) h2 c2 queries bopts ∧
    (createMercuriusTestClient D print inject injectB opts).headers
      = opts.headers.getD [] ∧
    (createMercuriusTestClient D print inject injectB opts).cookies
      = opts.cookies.getD [] :=
  ⟨rfl, rfl, rfl, rfl, rfl, rfl, rfl⟩

/-- C10 counterexample: `opts.url || "/graphql"` also replaces a supplied
empty-string url, so with `opts.url = ""` the injected request does not
target the supplied path `""` but `"/graphql"`. -/
theorem supplied_empty_url_is_replaced_cex :
    resolveUrl (some "") ≠ "" ∧
    resolveUrl (some "") = "/graphql" ∧
    (buildQueryRequest Unit (fun _ => "") (resolveUrl (some ""))
        [] [] (QueryInput.str "q") {}).url = "/graphql" := by
  refine ⟨?_, rfl, rfl⟩
  decide

/-- C10 (amended): when `opts.url` is omitted -- or supplied as the empty
string, which JS `||` treats the same way -- every injected request (query,
mutate, batch) targets `"/graphql"` and the WebSocket URL of `subscribe` ends
with `"/graphql"`; when `opts.url` is supplied non-empty, both use that same
path. -/
theorem default_url_is_graphql
    {D : Type} (print : D → String) (gh gc : List (String × String))
    (q : QueryInput D) (opts : QueryOptions)
    (queries : List (BatchQueryItem D)) (bh bc : List (String × String))
    (port : Nat) :
    resolveUrl none = "/graphql" ∧
    resolveUrl (some "") = "/graphql" ∧
    (buildQueryRequest D print (resolveUrl none) gh gc q opts).url
      = "/graphql" ∧
    (buildBatchRequest D print (resolveUrl none) gh gc queries bh bc).url
      = "/graphql" ∧
    (∃ pre, wsUrl port (resolveUrl none) = pre ++ "/graphql") ∧
    ∀ u : String, u ≠ "" →
      resolveUrl (some u) = u ∧
      (buildQueryRequest D print (resolveUrl (some u)) gh gc q opts).url = u ∧
      (buildBatchRequest D print (resolveUrl (some u)) gh gc queries bh bc).url
        = u ∧
      ∃ pre, wsUrl port (resolveUrl (some u)) = pre ++ u := by
  refine ⟨rfl, rfl, rfl, rfl,
    ⟨"ws://localhost:" ++ toString port, ?_⟩, ?_⟩
  · simp [wsUrl, resolveUrl, String.append_assoc]
  · intro u hu
    have hr : resolveUrl (some u) = u := by simp [resolveUrl, hu]
    refine ⟨hr, ?_, ?_, ⟨"ws://localhost:" ++ toString port, ?_⟩⟩
    · simp [buildQueryRequest, hr]
    · simp [buildBatchRequest, hr]
    · simp [wsUrl, hr, String.append_assoc]

/-- Witness for C10 at a concrete non-empty supplied url `"/api"`. -/
theorem default_url_witness :
    resolveUrl (some "/api") = "/api" :=
  ((default_url_is_graphql (fun _ : Unit => "") [] [] (QueryInput.str "q") {}
    [] [] [] 80).2.2.2.2.2 "/api" (by decide)).1

end Mercurius
